import Mathlib

/-!
Shallow embedding of the Noshiro input-orchestration library
(`src/index.ts`): the `InputManager` class (interactive prompting and
raw-keystroke subscription) and the `GameInputController` helper.

Prompting methods are modelled as pure functions from a configuration,
a question, the option record and a finite list of simulated input
lines to a trace of observable events (prompt writes, logger warnings)
together with an outcome.  A list of input lines that runs out models
the situation where the real loop would keep waiting for more input
(`blocked`).  Raw-mode handling is modelled as a state machine over the
set of listeners registered on the stdin `data` event: each call to
`enableRawMode` wraps the user handler in a fresh closure, so listeners
carry a unique closure id next to the handler they forward to.
-/

namespace Noshiro

/-- Characters matched by the JavaScript whitespace class `\s` and
removed by `String.prototype.trim` (ECMA-262 WhiteSpace and
LineTerminator sets). -/
def isJsWhitespace (c : Char) : Bool :=
  c == ' ' || c == '\t' || c == '\n' || c == '\r' || c == '\x0b' || c == '\x0c' ||
  c == '\u00a0' || c == '\u1680' || c == '\u2000' || c == '\u2001' || c == '\u2002' ||
  c == '\u2003' || c == '\u2004' || c == '\u2005' || c == '\u2006' || c == '\u2007' ||
  c == '\u2008' || c == '\u2009' || c == '\u200a' || c == '\u2028' || c == '\u2029' ||
  c == '\u202f' || c == '\u205f' || c == '\u3000' || c == '\ufeff'

/-- Drop leading JS whitespace from a character list. -/
def trimLeftChars (l : List Char) : List Char :=
  l.dropWhile isJsWhitespace

/-- Drop trailing JS whitespace from a character list. -/
def trimRightChars (l : List Char) : List Char :=
  (l.reverse.dropWhile isJsWhitespace).reverse

/-- JavaScript `String.prototype.trim`: removes leading and trailing
whitespace. -/
def jsTrim (s : String) : String :=
  String.mk (trimRightChars (trimLeftChars s.data))

/-- Removal of the maximal trailing whitespace run.  This is the effect
of both `replace(/\s+$/, "")` and the erasing part of
`replace(/\s*$/, repl)` (non-global replace: the first, i.e. earliest
and maximal, match of the anchored pattern is the trailing whitespace
run). -/
def jsTrimEnd (s : String) : String :=
  String.mk (trimRightChars s.data)

/-- JavaScript `String.prototype.toLowerCase`, restricted to the ASCII
range exercised by the code's comparisons (`y`, `yes`, `n`, `no`). -/
def jsToLowerCase (s : String) : String :=
  String.mk (s.data.map Char.toLower)

/-- Capability surface of a `NodeJS.ReadStream` as used by the code:
terminal attachment, presence of the optional `setRawMode` method, and
whether switching (resp. restoring) raw mode throws. -/
structure ReadStream where
  isTTY : Bool
  hasSetRawMode : Bool
  rawModeFails : Bool
  restoreFails : Bool
deriving DecidableEq, Repr

/-- Logger capability record (`InputLogger`): which optional channels
are present. -/
structure InputLogger where
  hasInfo : Bool
  hasWarn : Bool
  hasError : Bool
deriving DecidableEq, Repr

/-- An `InputManager`'s immutable configuration after construction:
the resolved stdin handle (or null), whether an stdout handle is
present, and the optional logger. -/
structure InputManagerConfig where
  stdin : Option ReadStream
  stdout : Bool
  logger : Option InputLogger
deriving DecidableEq, Repr

/-- `isInteractive()`: `Boolean(this.stdin?.isTTY && this.stdout)`. -/
def isInteractive (cfg : InputManagerConfig) : Bool :=
  (match cfg.stdin with
   | some s => s.isTTY
   | none => false) && cfg.stdout

/-- `this.stdin?.isTTY` coerced to a boolean, the guard of
`enableRawMode`. -/
def stdinIsTTY (cfg : InputManagerConfig) : Bool :=
  match cfg.stdin with
  | some s => s.isTTY
  | none => false

/-- Whether `this.logger?.warn?.(...)` actually invokes a warn
channel. -/
def loggerHasWarn (cfg : InputManagerConfig) : Bool :=
  match cfg.logger with
  | some l => l.hasWarn
  | none => false

/-- Observable events of a prompting call: a prompt string written to
the output handle (by `rl.question`), or a message delivered to the
logger's warn channel. -/
inductive PromptEvent
  | output (s : String)
  | warn (s : String)
deriving DecidableEq, Repr

/-- Trace fragment produced by `this.logger?.warn?.(msg)`. -/
def emitWarn (cfg : InputManagerConfig) (msg : String) : List PromptEvent :=
  if loggerHasWarn cfg then [PromptEvent.warn msg] else []

/-- The error thrown by the prompting methods when no interactive
terminal is available and no default was supplied (a plain `Error`
carrying the given message; the spec calls this condition
`NoInteractiveInputError`). -/
inductive PromptError
  | noInteractiveInput (msg : String)
deriving DecidableEq, Repr

/-- Outcome of a prompting call on a finite list of simulated input
lines: a returned value, a thrown error, or `blocked` when the lines
ran out while the (uncapped) retry loop was still running. -/
inductive PromptOutcome (α : Type)
  | ok (a : α)
  | err (e : PromptError)
  | blocked
deriving DecidableEq, Repr

/-- `YesNoPromptOptions`. -/
structure YesNoPromptOptions where
  defaultValue : Option Bool
deriving DecidableEq, Repr

/-- `TextPromptOptions`.  `allowEmpty?: boolean` is tested for
truthiness, so an absent field behaves as `false`. -/
structure TextPromptOptions where
  defaultValue : Option String
  allowEmpty : Bool
deriving DecidableEq, Repr

/-- The `while (true)` loop body of `promptYesNo`: one iteration per
input line.  Each iteration writes the prompt, normalizes the answer
(`answer.trim().toLowerCase()`) and dispatches exactly as the code
does. -/
def promptYesNoLoop (cfg : InputManagerConfig) (opts : YesNoPromptOptions)
    (prompt : String) : List String → List PromptEvent × PromptOutcome Bool
  | [] => ([], PromptOutcome.blocked)
  | line :: rest =>
    if h : jsToLowerCase (jsTrim line) = "" ∧ opts.defaultValue.isSome then
      ([PromptEvent.output prompt], PromptOutcome.ok (opts.defaultValue.get h.2))
    else if jsToLowerCase (jsTrim line) = "y" ∨ jsToLowerCase (jsTrim line) = "yes" then
      ([PromptEvent.output prompt], PromptOutcome.ok true)
    else if jsToLowerCase (jsTrim line) = "n" ∨ jsToLowerCase (jsTrim line) = "no" then
      ([PromptEvent.output prompt], PromptOutcome.ok false)
    else
      (PromptEvent.output prompt ::
         (emitWarn cfg "Please answer with y or n." ++
          (promptYesNoLoop cfg opts prompt rest).1),
       (promptYesNoLoop cfg opts prompt rest).2)

/-- `promptYesNo(question, options)`.  The displayed prompt is
`question.trim().replace(/\s+$/, "") + " (y/n): "`.  (The code's later
`if (!stdin || !stdout) throw` guard is unreachable once
`isInteractive()` has returned true, since interactivity requires both
handles.) -/
def promptYesNo (cfg : InputManagerConfig) (question : String)
    (opts : YesNoPromptOptions) (lines : List String) :
    List PromptEvent × PromptOutcome Bool :=
  if isInteractive cfg = false then
    match opts.defaultValue with
    | some d => ([], PromptOutcome.ok d)
    | none =>
      ([], PromptOutcome.err
        (PromptError.noInteractiveInput "TTY input is not available for yes/no prompt."))
  else
    promptYesNoLoop cfg opts (jsTrimEnd (jsTrim question) ++ " (y/n): ") lines

/-- The `while (true)` loop body of `promptText`: one iteration per
input line. -/
def promptTextLoop (cfg : InputManagerConfig) (opts : TextPromptOptions)
    (prompt : String) : List String → List PromptEvent × PromptOutcome String
  | [] => ([], PromptOutcome.blocked)
  | line :: rest =>
    if jsTrim line = "" then
      match opts.defaultValue with
      | some d => ([PromptEvent.output prompt], PromptOutcome.ok d)
      | none =>
        if opts.allowEmpty then
          ([PromptEvent.output prompt], PromptOutcome.ok "")
        else
          (PromptEvent.output prompt ::
             (emitWarn cfg "Input cannot be empty." ++
              (promptTextLoop cfg opts prompt rest).1),
           (promptTextLoop cfg opts prompt rest).2)
    else
      ([PromptEvent.output prompt], PromptOutcome.ok (jsTrim line))

/-- `promptText(question, options)`.  The displayed prompt is
`question.trim().replace(/\s*$/, ": ")`, i.e. the trailing whitespace
run of the already-trimmed question rewritten to `": "`. -/
def promptText (cfg : InputManagerConfig) (question : String)
    (opts : TextPromptOptions) (lines : List String) :
    List PromptEvent × PromptOutcome String :=
  if isInteractive cfg = false then
    match opts.defaultValue with
    | some d => ([], PromptOutcome.ok d)
    | none =>
      ([], PromptOutcome.err
        (PromptError.noInteractiveInput "TTY input is not available for text prompt."))
  else
    promptTextLoop cfg opts (jsTrimEnd (jsTrim question) ++ ": ") lines

/-- The prompt strings written to the output handle during a prompting
call, in order. -/
def outputsOf (evs : List PromptEvent) : List String :=
  evs.filterMap fun e =>
    match e with
    | PromptEvent.output s => some s
    | _ => none

/-- The messages delivered to the logger's warn channel during a
prompting call, in order. -/
def warnsOf (evs : List PromptEvent) : List String :=
  evs.filterMap fun e =>
    match e with
    | PromptEvent.warn s => some s
    | _ => none

/-- A listener registered on stdin's `data` event.  Each
`enableRawMode` call wraps its handler argument in a fresh closure
`(data) => handler(data.toString())`; `id` is the identity of that
closure (the reference `stdin.off` compares against) and `handler` the
user handler it forwards decoded chunks to. -/
structure RawListener (H : Type) where
  id : Nat
  handler : H
deriving DecidableEq, Repr

/-- Mutable state touched by `enableRawMode` / `disableRawMode`: the
stdin `data` listener list, the manager's stored
`rawInputHandler` closure reference, the `rawModeEnabled` flag, the
terminal's actual raw flag and flow state, and a counter producing
fresh closure identities. -/
structure RawState (H : Type) where
  listeners : List (RawListener H)
  rawInputHandler : Option Nat
  rawModeEnabled : Bool
  termRaw : Bool
  flowing : Bool
  nextId : Nat
deriving DecidableEq, Repr

/-- State of a freshly constructed `InputManager`. -/
def initialRawState {H : Type} : RawState H :=
  { listeners := [], rawInputHandler := none, rawModeEnabled := false,
    termRaw := false, flowing := false, nextId := 0 }

/-- Node's `removeListener`: removes at most one instance, the most
recently added listener equal to the given reference. -/
def removeLastListener {H : Type} : List (RawListener H) → Nat → List (RawListener H)
  | [], _ => []
  | x :: xs, cid =>
    if xs.any (fun l => l.id = cid) then
      x :: removeLastListener xs cid
    else if x.id = cid then
      xs
    else
      x :: removeLastListener xs cid

/-- `enableRawMode(handler)`.  Returns false with no state change when
stdin does not report terminal attachment, or when the
`setRawMode(true)` / `resume()` attempt throws (modelled atomically:
the failure is caught, logged via the error channel and leaves no
handler attached).  On success it marks raw mode active, registers a
fresh closure forwarding to `handler`, and stores that closure as the
manager's `rawInputHandler`. -/
def enableRawMode {H : Type} (cfg : InputManagerConfig) (handler : H)
    (st : RawState H) : Bool × RawState H :=
  match cfg.stdin with
  | none => (false, st)
  | some s =>
    if s.isTTY then
      if s.rawModeFails then
        (false, st)
      else
        let st1 : RawState H :=
          { st with
            termRaw := if s.hasSetRawMode then true else st.termRaw,
            flowing := true,
            rawModeEnabled := true }
        (true,
         { st1 with
           listeners := st1.listeners ++ [⟨st1.nextId, handler⟩],
           rawInputHandler := some st1.nextId,
           nextId := st1.nextId + 1 })
    else
      (false, st)

/-- `disableRawMode()`.  No-op without a stdin handle; otherwise
deregisters the stored closure (if any) and, when raw mode was active,
attempts `setRawMode(false)` / `pause()` (a failure there is logged as
a warning and swallowed) and clears `rawModeEnabled` regardless. -/
def disableRawMode {H : Type} (cfg : InputManagerConfig)
    (st : RawState H) : RawState H :=
  match cfg.stdin with
  | none => st
  | some s =>
    let st1 : RawState H :=
      match st.rawInputHandler with
      | some cid =>
        { st with
          listeners := removeLastListener st.listeners cid,
          rawInputHandler := none }
      | none => st
    if st1.rawModeEnabled then
      { st1 with
        termRaw := if s.restoreFails then st1.termRaw
                   else if s.hasSetRawMode then false else st1.termRaw,
        flowing := if s.restoreFails then st1.flowing else false,
        rawModeEnabled := false }
    else
      st1

/-- The user handlers a `data` event reaches, in registration order:
every listener currently on the stream fires, each forwarding to its
handler. -/
def invokedHandlers {H : Type} (st : RawState H) : List H :=
  st.listeners.map fun l => l.handler

/-- The two semantic actions of `ManualControlHandlers`
(`GameInputController`): `onExit` and `onAdvance` invocations. -/
inductive ManualEvent
  | onExit
  | onAdvance
deriving DecidableEq, Repr

/-- The fixed key decoder `attachManualControls` passes to
`enableRawMode`: the whole decoded chunk is compared for equality; ESC
invokes `onExit`, carriage-return or line-feed invokes `onAdvance`
(whose promise is discarded with `void`, i.e. the invocation happens
but its result is not awaited), anything else does nothing. -/
def manualKeyHandler (key : String) : List ManualEvent :=
  if key = "\x1b" then
    [ManualEvent.onExit]
  else if key = "\r" ∨ key = "\n" then
    [ManualEvent.onAdvance]
  else
    []

/-- `GameInputController.attachManualControls(handlers)`: delegates to
the composed manager's `enableRawMode` with `manualKeyHandler`. -/
def attachManualControls (cfg : InputManagerConfig)
    (st : RawState (String → List ManualEvent)) :
    Bool × RawState (String → List ManualEvent) :=
  enableRawMode cfg manualKeyHandler st

/-- `GameInputController.detachManualControls()`: delegates to
`disableRawMode`. -/
def detachManualControls (cfg : InputManagerConfig)
    (st : RawState (String → List ManualEvent)) :
    RawState (String → List ManualEvent) :=
  disableRawMode cfg st

/-- Delivery of one `data` chunk: every registered listener decodes the
chunk (`data.toString()`) and runs its handler on the whole decoded
text; the manual events produced, in order. -/
def deliverChunk (st : RawState (String → List ManualEvent))
    (chunk : String) : List ManualEvent :=
  (st.listeners.map fun l => l.handler chunk).flatten

/-- A non-interactive configuration: no stdin handle at all. -/
def cfgNoStdin : InputManagerConfig :=
  { stdin := none, stdout := true, logger := none }

/-- A non-interactive configuration: stdin present but not a TTY. -/
def cfgNotTTY : InputManagerConfig :=
  { stdin := some { isTTY := false, hasSetRawMode := false,
                    rawModeFails := false, restoreFails := false },
    stdout := true, logger := none }

/-- An interactive configuration with a warn-capable logger. -/
def cfgInteractive : InputManagerConfig :=
  { stdin := some { isTTY := true, hasSetRawMode := true,
                    rawModeFails := false, restoreFails := false },
    stdout := true,
    logger := some { hasInfo := true, hasWarn := true, hasError := true } }

/-- The stream of `cfgInteractive`. -/
def ttyStream : ReadStream :=
  { isTTY := true, hasSetRawMode := true, rawModeFails := false, restoreFails := false }

/-- What the spec's words in claim C3 would compute for `promptYesNo`:
only the trailing whitespace of the question removed, start of the
question untouched, then `" (y/n): "` appended. -/
def claimedYesNoPrompt (question : String) : String :=
  jsTrimEnd question ++ " (y/n): "

/-- What the spec's words in claim C3 would compute for `promptText`:
only the trailing whitespace rewritten to `": "`, start untouched. -/
def claimedTextPrompt (question : String) : String :=
  jsTrimEnd question ++ ": "

/-! ### Helper lemmas -/

/-- `dropWhile` is idempotent. -/
theorem dropWhile_idem (p : Char → Bool) :
    ∀ l : List Char, (l.dropWhile p).dropWhile p = l.dropWhile p
  | [] => rfl
  | x :: xs => by
    by_cases h : p x = true
    · simp [List.dropWhile_cons, h, dropWhile_idem p xs]
    · simp [List.dropWhile_cons, h]

/-- Trailing-whitespace removal is idempotent. -/
theorem trimRightChars_idem (l : List Char) :
    trimRightChars (trimRightChars l) = trimRightChars l := by
  unfold trimRightChars
  rw [List.reverse_reverse, dropWhile_idem]

/-- A fully trimmed string has no trailing whitespace left to remove,
so the `replace` on the already-trimmed question is the identity (resp.
appends only its replacement). -/
theorem jsTrimEnd_jsTrim (s : String) : jsTrimEnd (jsTrim s) = jsTrim s :=
  congrArg String.mk (trimRightChars_idem _)

/-- A warn-channel call writes nothing to the output handle. -/
theorem outputsOf_emitWarn (cfg : InputManagerConfig) (msg : String) :
    outputsOf (emitWarn cfg msg) = [] := by
  unfold emitWarn
  split <;> simp [outputsOf]

/-- Every prompt string the yes/no loop writes is the prompt it was
given. -/
theorem promptYesNoLoop_outputs (cfg : InputManagerConfig) (opts : YesNoPromptOptions)
    (prompt : String) :
    ∀ lines : List String,
      (outputsOf (promptYesNoLoop cfg opts prompt lines).1).all (fun s => s == prompt) = true
  | [] => by simp [promptYesNoLoop, outputsOf]
  | line :: rest => by
    have ih := promptYesNoLoop_outputs cfg opts prompt rest
    unfold promptYesNoLoop
    split
    · simp [outputsOf]
    · split
      · simp [outputsOf]
      · split
        · simp [outputsOf]
        · by_cases hw : loggerHasWarn cfg = true <;>
            simp_all [outputsOf, emitWarn]

/-- The yes/no loop writes the prompt at least once per consumed
line. -/
theorem promptYesNoLoop_outputs_ne (cfg : InputManagerConfig) (opts : YesNoPromptOptions)
    (prompt line : String) (rest : List String) :
    outputsOf (promptYesNoLoop cfg opts prompt (line :: rest)).1 ≠ [] := by
  unfold promptYesNoLoop
  split
  · simp [outputsOf]
  · split
    · simp [outputsOf]
    · split <;> simp [outputsOf]

/-- Every prompt string the text loop writes is the prompt it was
given. -/
theorem promptTextLoop_outputs (cfg : InputManagerConfig) (opts : TextPromptOptions)
    (prompt : String) :
    ∀ lines : List String,
      (outputsOf (promptTextLoop cfg opts prompt lines).1).all (fun s => s == prompt) = true
  | [] => by simp [promptTextLoop, outputsOf]
  | line :: rest => by
    have ih := promptTextLoop_outputs cfg opts prompt rest
    unfold promptTextLoop
    split
    · split
      · simp [outputsOf]
      · split
        · simp [outputsOf]
        · by_cases hw : loggerHasWarn cfg = true <;>
            simp_all [outputsOf, emitWarn]
    · simp [outputsOf]

/-- The text loop writes the prompt at least once per consumed line. -/
theorem promptTextLoop_outputs_ne (cfg : InputManagerConfig) (opts : TextPromptOptions)
    (prompt line : String) (rest : List String) :
    outputsOf (promptTextLoop cfg opts prompt (line :: rest)).1 ≠ [] := by
  unfold promptTextLoop
  split
  · split
    · simp [outputsOf]
    · split <;> simp [outputsOf]
  · simp [outputsOf]

/-! ### Claims -/

/-- Claim C1, counterexample: in a non-interactive configuration with
no default, both prompts do fail with the no-interactive-input error,
but its message carries a trailing period, so it is not the
period-free message the claim states. -/
theorem claim_C1_counterexample :
    (promptYesNo cfgNoStdin "Continue?" ⟨none⟩ []).2 =
      PromptOutcome.err
        (PromptError.noInteractiveInput "TTY input is not available for yes/no prompt.") ∧
    (promptYesNo cfgNoStdin "Continue?" ⟨none⟩ []).2 ≠
      PromptOutcome.err
        (PromptError.noInteractiveInput "TTY input is not available for yes/no prompt") ∧
    (promptText cfgNoStdin "Name" ⟨none, false⟩ []).2 =
      PromptOutcome.err
        (PromptError.noInteractiveInput "TTY input is not available for text prompt.") ∧
    (promptText cfgNoStdin "Name" ⟨none, false⟩ []).2 ≠
      PromptOutcome.err
        (PromptError.noInteractiveInput "TTY input is not available for text prompt") := by
  decide

/-- Claim C1, amended: for every non-interactive configuration and
every call without a default value, `promptYesNo` fails with the
no-interactive-input error "TTY input is not available for yes/no
prompt." and `promptText` with "TTY input is not available for text
prompt." (each message ends with a period). -/
theorem claim_C1 (cfg : InputManagerConfig) (h : isInteractive cfg = false)
    (question : String) (lines : List String) (ae : Bool) :
    (promptYesNo cfg question ⟨none⟩ lines).2 =
      PromptOutcome.err
        (PromptError.noInteractiveInput "TTY input is not available for yes/no prompt.") ∧
    (promptText cfg question ⟨none, ae⟩ lines).2 =
      PromptOutcome.err
        (PromptError.noInteractiveInput "TTY input is not available for text prompt.") := by
  constructor <;> simp [promptYesNo, promptText, h]

/-- Claim C1, witness: the amended claim at a concrete non-TTY
configuration. -/
theorem claim_C1_witness :
    (promptYesNo cfgNotTTY "Continue?" ⟨none⟩ []).2 =
      PromptOutcome.err
        (PromptError.noInteractiveInput "TTY input is not available for yes/no prompt.") ∧
    (promptText cfgNotTTY "Continue?" ⟨none, true⟩ []).2 =
      PromptOutcome.err
        (PromptError.noInteractiveInput "TTY input is not available for text prompt.") :=
  claim_C1 cfgNotTTY (by decide) "Continue?" [] true

/-- Claim C2: in every non-interactive configuration, a call with a
default value returns that default with an empty event trace — nothing
is written to the output handle (and nothing is logged). -/
theorem claim_C2 (cfg : InputManagerConfig) (h : isInteractive cfg = false)
    (question : String) (lines : List String) (b : Bool) (s : String) (ae : Bool) :
    promptYesNo cfg question ⟨some b⟩ lines = ([], PromptOutcome.ok b) ∧
    promptText cfg question ⟨some s, ae⟩ lines = ([], PromptOutcome.ok s) := by
  constructor <;> simp [promptYesNo, promptText, h]

/-- Claim C2, witness: the claim at a concrete stdin-less
configuration. -/
theorem claim_C2_witness :
    promptYesNo cfgNoStdin "Generate a map?" ⟨some true⟩ [] = ([], PromptOutcome.ok true) ∧
    promptText cfgNoStdin "Generate a map?" ⟨some "Bob", false⟩ [] =
      ([], PromptOutcome.ok "Bob") :=
  claim_C2 cfgNoStdin (by decide) "Generate a map?" [] true "Bob" false

/-- Claim C3, counterexample: `promptYesNo` and `promptText` first
apply `trim()`, which also removes leading whitespace, so for a
question with leading whitespace the displayed prompt differs from the
one the claim predicts (trailing whitespace removed, start
preserved). -/
theorem claim_C3_counterexample :
    (promptYesNo cfgInteractive " Continue?" ⟨none⟩ ["y"]).1 =
      [PromptEvent.output "Continue? (y/n): "] ∧
    claimedYesNoPrompt " Continue?" = " Continue? (y/n): " ∧
    "Continue? (y/n): " ≠ " Continue? (y/n): " ∧
    (promptText cfgInteractive " Name" ⟨none, false⟩ ["Bob"]).1 =
      [PromptEvent.output "Name: "] ∧
    claimedTextPrompt " Name" = " Name: " ∧
    "Name: " ≠ " Name: " := by
  decide

/-- Claim C3, amended: in an interactive configuration every prompt
`promptYesNo` displays is the question with its leading and trailing
whitespace removed followed by `" (y/n): "`, and every prompt
`promptText` displays is the question with its leading and trailing
whitespace removed followed by `": "`; at least one prompt is
displayed whenever at least one input line is read. -/
theorem claim_C3 (cfg : InputManagerConfig) (h : isInteractive cfg = true)
    (question : String) (yopts : YesNoPromptOptions) (topts : TextPromptOptions)
    (lines : List String) :
    ((outputsOf (promptYesNo cfg question yopts lines).1).all
       (fun s => s == jsTrim question ++ " (y/n): ")) = true ∧
    ((outputsOf (promptText cfg question topts lines).1).all
       (fun s => s == jsTrim question ++ ": ")) = true ∧
    (lines ≠ [] →
      outputsOf (promptYesNo cfg question yopts lines).1 ≠ [] ∧
      outputsOf (promptText cfg question topts lines).1 ≠ []) := by
  have hy : promptYesNo cfg question yopts lines =
      promptYesNoLoop cfg yopts (jsTrim question ++ " (y/n): ") lines := by
    unfold promptYesNo
    rw [jsTrimEnd_jsTrim]
    simp [h]
  have htx : promptText cfg question topts lines =
      promptTextLoop cfg topts (jsTrim question ++ ": ") lines := by
    unfold promptText
    rw [jsTrimEnd_jsTrim]
    simp [h]
  refine ⟨?_, ?_, ?_⟩
  · rw [hy]; exact promptYesNoLoop_outputs cfg yopts _ lines
  · rw [htx]; exact promptTextLoop_outputs cfg topts _ lines
  · intro hne
    cases lines with
    | nil => exact absurd rfl hne
    | cons line rest =>
      exact ⟨by rw [hy]; exact promptYesNoLoop_outputs_ne cfg yopts _ line rest,
             by rw [htx]; exact promptTextLoop_outputs_ne cfg topts _ line rest⟩

/-- Claim C3, witness: the amended claim at a concrete interactive
configuration and a question with leading and trailing whitespace. -/
theorem claim_C3_witness :
    ((outputsOf (promptYesNo cfgInteractive " Hello " ⟨none⟩ ["y"]).1).all
       (fun s => s == jsTrim " Hello " ++ " (y/n): ")) = true ∧
    ((outputsOf (promptText cfgInteractive " Hello " ⟨none, false⟩ ["y"]).1).all
       (fun s => s == jsTrim " Hello " ++ ": ")) = true ∧
    outputsOf (promptYesNo cfgInteractive " Hello " ⟨none⟩ ["y"]).1 ≠ [] ∧
    outputsOf (promptText cfgInteractive " Hello " ⟨none, false⟩ ["y"]).1 ≠ [] := by
  have hc := claim_C3 cfgInteractive (by decide) " Hello " ⟨none⟩ ⟨none, false⟩ ["y"]
  exact ⟨hc.1, hc.2.1, hc.2.2 (by decide)⟩

/-- Claim C4: on the input lines `["", "maybe", "y"]` with no default,
`promptYesNo` warns exactly twice with "Please answer with y or n."
and returns true; in general each read line is trimmed and lowercased,
`y`/`yes` returns true, `n`/`no` returns false, and any other line
(when it does not trigger the empty-line default) warns and runs
another iteration. -/
theorem claim_C4 :
    ((promptYesNo cfgInteractive "Continue?" ⟨none⟩ ["", "maybe", "y"]).2 =
       PromptOutcome.ok true ∧
     warnsOf (promptYesNo cfgInteractive "Continue?" ⟨none⟩ ["", "maybe", "y"]).1 =
       ["Please answer with y or n.", "Please answer with y or n."]) ∧
    (∀ (cfg : InputManagerConfig) (opts : YesNoPromptOptions) (prompt line : String)
        (rest : List String),
      (jsToLowerCase (jsTrim line) = "y" ∨ jsToLowerCase (jsTrim line) = "yes" →
        promptYesNoLoop cfg opts prompt (line :: rest) =
          ([PromptEvent.output prompt], PromptOutcome.ok true)) ∧
      (jsToLowerCase (jsTrim line) = "n" ∨ jsToLowerCase (jsTrim line) = "no" →
        promptYesNoLoop cfg opts prompt (line :: rest) =
          ([PromptEvent.output prompt], PromptOutcome.ok false)) ∧
      (¬(jsToLowerCase (jsTrim line) = "" ∧ opts.defaultValue.isSome = true) →
       jsToLowerCase (jsTrim line) ≠ "y" → jsToLowerCase (jsTrim line) ≠ "yes" →
       jsToLowerCase (jsTrim line) ≠ "n" → jsToLowerCase (jsTrim line) ≠ "no" →
        promptYesNoLoop cfg opts prompt (line :: rest) =
          (PromptEvent.output prompt ::
             (emitWarn cfg "Please answer with y or n." ++
              (promptYesNoLoop cfg opts prompt rest).1),
           (promptYesNoLoop cfg opts prompt rest).2))) := by
  refine ⟨⟨by decide, by decide⟩, ?_⟩
  intro cfg opts prompt line rest
  refine ⟨?_, ?_, ?_⟩
  · intro hyes
    unfold promptYesNoLoop
    split
    · rename_i hcon
      exfalso
      rcases hyes with hv | hv <;> rw [hv] at hcon <;> exact absurd hcon.1 (by decide)
    · rfl
  · intro hno
    unfold promptYesNoLoop
    split
    · rename_i hcon
      exfalso
      rcases hno with hv | hv <;> rw [hv] at hcon <;> exact absurd hcon.1 (by decide)
    · have hny : ¬(jsToLowerCase (jsTrim line) = "y" ∨ jsToLowerCase (jsTrim line) = "yes") := by
        rcases hno with hv | hv <;> rw [hv] <;> decide
      rw [if_neg hny]
  · intro h0 h1 h2 h3 h4
    have hny : ¬(jsToLowerCase (jsTrim line) = "y" ∨ jsToLowerCase (jsTrim line) = "yes") :=
      fun hc => hc.elim h1 h2
    have hnn : ¬(jsToLowerCase (jsTrim line) = "n" ∨ jsToLowerCase (jsTrim line) = "no") :=
      fun hc => hc.elim h3 h4
    rw [promptYesNoLoop.eq_2, dif_neg h0, if_neg hny, if_neg hnn]

/-- Claim C4, witness: a line trimming and lowercasing to "yes"
returns true in one iteration even though a default is set. -/
theorem claim_C4_witness :
    promptYesNoLoop cfgNotTTY ⟨some false⟩ "p (y/n): " ["YES"] =
      ([PromptEvent.output "p (y/n): "], PromptOutcome.ok true) :=
  (claim_C4.2 cfgNotTTY ⟨some false⟩ "p (y/n): " "YES" []).1 (Or.inr (by decide))

/-- Claim C5: when a line read by `promptText` trims to the empty
string, a present default is returned (taking precedence over
`allowEmpty`); otherwise `allowEmpty` returns the empty string with no
warning; otherwise the "Input cannot be empty." warning is emitted and
the loop repeats on the remaining lines. -/
theorem claim_C5 (cfg : InputManagerConfig) (prompt line : String) (rest : List String)
    (h : jsTrim line = "") (d : String) (ae : Bool) :
    promptTextLoop cfg ⟨some d, ae⟩ prompt (line :: rest) =
      ([PromptEvent.output prompt], PromptOutcome.ok d) ∧
    promptTextLoop cfg ⟨none, true⟩ prompt (line :: rest) =
      ([PromptEvent.output prompt], PromptOutcome.ok "") ∧
    warnsOf (promptTextLoop cfg ⟨none, true⟩ prompt (line :: rest)).1 = [] ∧
    promptTextLoop cfg ⟨none, false⟩ prompt (line :: rest) =
      (PromptEvent.output prompt ::
         (emitWarn cfg "Input cannot be empty." ++
          (promptTextLoop cfg ⟨none, false⟩ prompt rest).1),
       (promptTextLoop cfg ⟨none, false⟩ prompt rest).2) := by
  refine ⟨?_, ?_, ?_, ?_⟩ <;> simp [promptTextLoop, h, warnsOf]

/-- Claim C5, witness: the claim at a whitespace-only input line. -/
theorem claim_C5_witness :
    promptTextLoop cfgNoStdin ⟨some "x", true⟩ "Name: " [" "] =
      ([PromptEvent.output "Name: "], PromptOutcome.ok "x") ∧
    promptTextLoop cfgNoStdin ⟨none, true⟩ "Name: " [" "] =
      ([PromptEvent.output "Name: "], PromptOutcome.ok "") ∧
    warnsOf (promptTextLoop cfgNoStdin ⟨none, true⟩ "Name: " [" "]).1 = [] ∧
    promptTextLoop cfgNoStdin ⟨none, false⟩ "Name: " [" "] =
      (PromptEvent.output "Name: " ::
         (emitWarn cfgNoStdin "Input cannot be empty." ++
          (promptTextLoop cfgNoStdin ⟨none, false⟩ "Name: " []).1),
       (promptTextLoop cfgNoStdin ⟨none, false⟩ "Name: " []).2) :=
  claim_C5 cfgNoStdin "Name: " " " [] (by decide) "x" true

/-- Claim C6: when the input handle does not report terminal
attachment (including when there is no input handle at all),
`enableRawMode` returns false and leaves the state — listeners
included — completely unchanged, and `disableRawMode` on a state with
no stored handler and raw mode off (in particular the fresh state the
enable call left untouched) changes nothing.  Both operations are
total functions of the model, so neither can throw. -/
theorem claim_C6 (cfg : InputManagerConfig) (h : stdinIsTTY cfg = false) :
    (∀ (hid : Nat) (st : RawState Nat), enableRawMode cfg hid st = (false, st)) ∧
    (∀ st : RawState Nat, st.rawInputHandler = none → st.rawModeEnabled = false →
      disableRawMode cfg st = st) := by
  constructor
  · intro hid st
    unfold enableRawMode
    cases hc : cfg.stdin with
    | none => rfl
    | some s =>
      have htty : s.isTTY = false := by
        unfold stdinIsTTY at h
        rw [hc] at h
        exact h
      simp [htty]
  · intro st h1 h2
    unfold disableRawMode
    cases hc : cfg.stdin with
    | none => rfl
    | some s => simp [h1, h2]

/-- Claim C6, witness: the claim at a concrete non-TTY configuration
and the fresh state. -/
theorem claim_C6_witness :
    enableRawMode cfgNotTTY 0 (initialRawState : RawState Nat) = (false, initialRawState) ∧
    disableRawMode cfgNotTTY (initialRawState : RawState Nat) = initialRawState :=
  ⟨(claim_C6 cfgNotTTY (by decide)).1 0 initialRawState,
   (claim_C6 cfgNotTTY (by decide)).2 initialRawState rfl rfl⟩

/-- Claim C7: from a fresh manager on a terminal-attached stdin whose
raw-mode switch succeeds, `enableRawMode h`, `disableRawMode`,
`enableRawMode h2` leaves exactly one registered data listener, the
one forwarding to `h2`; a keystroke therefore reaches `h2` and (when
the handlers differ) never `h`. -/
theorem claim_C7 (cfg : InputManagerConfig) (s : ReadStream) (hs : cfg.stdin = some s)
    (ht : s.isTTY = true) (hf : s.rawModeFails = false) (h h2 : Nat) :
    invokedHandlers
      (enableRawMode cfg h2
        (disableRawMode cfg
          (enableRawMode cfg h (initialRawState : RawState Nat)).2)).2 = [h2] ∧
    (enableRawMode cfg h2
      (disableRawMode cfg
        (enableRawMode cfg h (initialRawState : RawState Nat)).2)).2.listeners.length = 1 ∧
    (h ≠ h2 →
      h ∉ invokedHandlers
        (enableRawMode cfg h2
          (disableRawMode cfg
            (enableRawMode cfg h (initialRawState : RawState Nat)).2)).2) := by
  refine ⟨?_, ?_, fun hne => ?_⟩ <;>
    simp [enableRawMode, disableRawMode, hs, ht, hf, initialRawState, removeLastListener,
      invokedHandlers]
  exact hne

/-- Claim C7, witness: the round trip at a concrete interactive
configuration and two distinct handlers. -/
theorem claim_C7_witness :
    invokedHandlers
      (enableRawMode cfgInteractive 7
        (disableRawMode cfgInteractive
          (enableRawMode cfgInteractive 5 (initialRawState : RawState Nat)).2)).2 = [7] ∧
    (enableRawMode cfgInteractive 7
      (disableRawMode cfgInteractive
        (enableRawMode cfgInteractive 5 (initialRawState : RawState Nat)).2)).2.listeners.length =
      1 ∧
    5 ∉ invokedHandlers
      (enableRawMode cfgInteractive 7
        (disableRawMode cfgInteractive
          (enableRawMode cfgInteractive 5 (initialRawState : RawState Nat)).2)).2 := by
  have hc := claim_C7 cfgInteractive ttyStream rfl rfl rfl 5 7
  exact ⟨hc.1, hc.2.1, hc.2.2 (by decide)⟩

/-- Claim C8: calling `enableRawMode` a second time without disabling
replaces the stored `rawInputHandler` reference (the closure id
advances from 0 to 1) but leaves the first low-level listener
attached, so a keystroke reaches both the old and the new handler in
order; the following `disableRawMode` detaches only the most recently
stored listener, leaving the old one active. -/
theorem claim_C8 (cfg : InputManagerConfig) (s : ReadStream) (hs : cfg.stdin = some s)
    (ht : s.isTTY = true) (hf : s.rawModeFails = false) (h h2 : Nat) :
    (enableRawMode cfg h (initialRawState : RawState Nat)).2.rawInputHandler = some 0 ∧
    invokedHandlers
      (enableRawMode cfg h2 (enableRawMode cfg h (initialRawState : RawState Nat)).2).2 =
      [h, h2] ∧
    (enableRawMode cfg h2
      (enableRawMode cfg h (initialRawState : RawState Nat)).2).2.rawInputHandler = some 1 ∧
    invokedHandlers
      (disableRawMode cfg
        (enableRawMode cfg h2 (enableRawMode cfg h (initialRawState : RawState Nat)).2).2) =
      [h] := by
  refine ⟨?_, ?_, ?_, ?_⟩ <;>
    simp [enableRawMode, disableRawMode, hs, ht, hf, initialRawState, removeLastListener,
      invokedHandlers]

/-- Claim C8, witness: the double-enable scenario at a concrete
interactive configuration. -/
theorem claim_C8_witness :
    (enableRawMode cfgInteractive 3 (initialRawState : RawState Nat)).2.rawInputHandler =
      some 0 ∧
    invokedHandlers
      (enableRawMode cfgInteractive 4
        (enableRawMode cfgInteractive 3 (initialRawState : RawState Nat)).2).2 = [3, 4] ∧
    (enableRawMode cfgInteractive 4
      (enableRawMode cfgInteractive 3 (initialRawState : RawState Nat)).2).2.rawInputHandler =
      some 1 ∧
    invokedHandlers
      (disableRawMode cfgInteractive
        (enableRawMode cfgInteractive 4
          (enableRawMode cfgInteractive 3 (initialRawState : RawState Nat)).2).2) = [3] :=
  claim_C8 cfgInteractive ttyStream rfl rfl rfl 3 4

/-- Claim C9: after `attachManualControls` succeeds on a
terminal-attached stdin, a chunk decoding to the single ESC character
invokes `onExit` exactly once and never `onAdvance`, and a chunk
decoding to carriage-return or line-feed invokes `onAdvance` exactly
once and never `onExit` (the binder discards the promise `onAdvance`
may return, so the invocation is fire-and-forget). -/
theorem claim_C9 (cfg : InputManagerConfig) (s : ReadStream) (hs : cfg.stdin = some s)
    (ht : s.isTTY = true) (hf : s.rawModeFails = false) :
    (attachManualControls cfg initialRawState).1 = true ∧
    deliverChunk (attachManualControls cfg initialRawState).2 "\x1b" = [ManualEvent.onExit] ∧
    deliverChunk (attachManualControls cfg initialRawState).2 "\r" = [ManualEvent.onAdvance] ∧
    deliverChunk (attachManualControls cfg initialRawState).2 "\n" = [ManualEvent.onAdvance] := by
  refine ⟨?_, ?_, ?_, ?_⟩ <;>
    simp [attachManualControls, enableRawMode, hs, ht, hf, initialRawState, deliverChunk,
      manualKeyHandler]

/-- Claim C9, witness: the attached controls at a concrete interactive
configuration. -/
theorem claim_C9_witness :
    (attachManualControls cfgInteractive initialRawState).1 = true ∧
    deliverChunk (attachManualControls cfgInteractive initialRawState).2 "\x1b" =
      [ManualEvent.onExit] ∧
    deliverChunk (attachManualControls cfgInteractive initialRawState).2 "\r" =
      [ManualEvent.onAdvance] ∧
    deliverChunk (attachManualControls cfgInteractive initialRawState).2 "\n" =
      [ManualEvent.onAdvance] :=
  claim_C9 cfgInteractive ttyStream rfl rfl rfl

/-- Claim C10: the manual-control decoder compares the whole decoded
chunk for equality, so any chunk other than exactly ESC,
carriage-return or line-feed — multi-character chunks such as a CRLF
pair delivered at once or an arrow-key escape sequence included —
invokes neither handler. -/
theorem claim_C10 (cfg : InputManagerConfig) (s : ReadStream) (hs : cfg.stdin = some s)
    (ht : s.isTTY = true) (hf : s.rawModeFails = false) (chunk : String)
    (h1 : chunk ≠ "\x1b") (h2 : chunk ≠ "\r") (h3 : chunk ≠ "\n") :
    deliverChunk (attachManualControls cfg initialRawState).2 chunk = [] ∧
    manualKeyHandler chunk = [] := by
  refine ⟨?_, ?_⟩ <;>
    simp [attachManualControls, enableRawMode, hs, ht, hf, initialRawState, deliverChunk,
      manualKeyHandler, h1, h2, h3]

/-- Claim C10, witness: a CRLF chunk delivered at once and an
arrow-key escape sequence both produce no manual-control event. -/
theorem claim_C10_witness :
    deliverChunk (attachManualControls cfgInteractive initialRawState).2 "\r\n" = [] ∧
    manualKeyHandler "\x1b[A" = [] :=
  ⟨(claim_C10 cfgInteractive ttyStream rfl rfl rfl "\r\n"
      (by decide) (by decide) (by decide)).1,
   (claim_C10 cfgInteractive ttyStream rfl rfl rfl "\x1b[A"
      (by decide) (by decide) (by decide)).2⟩

end Noshiro
